import Mathlib

/-!
Verification of the `s2t-gcp.py` text-to-speech command-line tool.

The program has two straight-line flows: a voice-listing flow and a
synthesis flow.  Both interact with the outside world only through
console prints, file reads/writes and three remote-service calls
(client creation, voice-catalog query, speech synthesis).  We embed the
program shallowly: the outside world is an `Env` of oracles, a run is a
pure function from `Env` and arguments to a `Result` holding the trace
of observable events, the process exit code, and the final state of the
binary output filesystem.
-/

namespace S2TGcp

/-- `texttospeech.SsmlVoiceGender` proto enum (the gender classification
attached to a voice descriptor). -/
inductive SsmlVoiceGender where
  | SSML_VOICE_GENDER_UNSPECIFIED
  | MALE
  | FEMALE
  | NEUTRAL
  deriving DecidableEq, Repr

/-- Wire (numeric) value of the enum member, as serialized by the proto. -/
def SsmlVoiceGender.value : SsmlVoiceGender → Nat
  | .SSML_VOICE_GENDER_UNSPECIFIED => 0
  | .MALE => 1
  | .FEMALE => 2
  | .NEUTRAL => 3

/-- `SsmlVoiceGender(...).name` in Python: the symbolic name of the member. -/
def SsmlVoiceGender.memberName : SsmlVoiceGender → String
  | .SSML_VOICE_GENDER_UNSPECIFIED => "SSML_VOICE_GENDER_UNSPECIFIED"
  | .MALE => "MALE"
  | .FEMALE => "FEMALE"
  | .NEUTRAL => "NEUTRAL"

/-- A voice descriptor returned by the remote catalog query
(`response.voices` elements in `list_voices`). -/
structure Voice where
  name : String
  language_codes : List String
  ssml_gender : SsmlVoiceGender
  natural_sample_rate_hertz : Nat
  deriving DecidableEq, Repr

/-- `texttospeech.SynthesisInput(text=...)`. -/
structure SynthesisInput where
  text : String
  deriving DecidableEq, Repr

/-- `texttospeech.VoiceSelectionParams(language_code=..., name=...)`. -/
structure VoiceSelectionParams where
  language_code : String
  name : String
  deriving DecidableEq, Repr

/-- `texttospeech.AudioEncoding` (only the members the program can use). -/
inductive AudioEncoding where
  | AUDIO_ENCODING_UNSPECIFIED
  | LINEAR16
  | MP3
  | OGG_OPUS
  deriving DecidableEq, Repr

/-- `texttospeech.AudioConfig(audio_encoding=...)`. -/
structure AudioConfig where
  audio_encoding : AudioEncoding
  deriving DecidableEq, Repr

/-- Outcome of `open(input_file, 'r', encoding='utf-8')` followed by
`f.read()`: the file is missing (`FileNotFoundError`), some other
exception is raised, or the full text is read. -/
inductive ReadResult where
  | notFound
  | failure (e : String)
  | ok (text : String)
  deriving DecidableEq, Repr

/-- Observable events of a run: console prints, file I/O and the three
remote-service interactions. -/
inductive Event where
  | print (s : String)
  | fileRead (path : String)
  | netConnect
  | netListVoices (language_code : String)
  | netSynthesize (input : SynthesisInput) (voice : VoiceSelectionParams)
      (audio_config : AudioConfig)
  | fileWrite (path : String) (content : List Nat)
  deriving DecidableEq, Repr

/-- The event is a file read or a file write. -/
def Event.isFileIO : Event → Bool
  | .fileRead _ => true
  | .fileWrite _ _ => true
  | _ => false

/-- The event is one of the three remote-service interactions. -/
def Event.isNetwork : Event → Bool
  | .netConnect => true
  | .netListVoices _ => true
  | .netSynthesize _ _ _ => true
  | _ => false

/-- The event is the dispatch of a synthesize call. -/
def Event.isSynthesize : Event → Bool
  | .netSynthesize _ _ _ => true
  | _ => false

/-- The event is a write to the output file. -/
def Event.isFileWrite : Event → Bool
  | .fileWrite _ _ => true
  | _ => false

/-- The event is a catalog (list-voices) query. -/
def Event.isListQuery : Event → Bool
  | .netListVoices _ => true
  | _ => false

/-- The outside world, as the program can observe it:
* `readFile` — outcome of opening and reading a path as UTF-8 text;
* `clientCreate` — outcome of `texttospeech.TextToSpeechClient()`;
* `listVoicesRemote` — outcome of `client.list_voices(language_code=...)`;
* `synthesizeRemote` — outcome of `client.synthesize_speech(...)`, the
  payload being the `audio_content` bytes;
* `writeFile` — `none` when opening the path for binary writing and
  writing succeed, `some e` when an exception `e` is raised;
* `outFs` — contents of the binary filesystem before the run. -/
structure Env where
  readFile : String → ReadResult
  clientCreate : Except String Unit
  listVoicesRemote : String → Except String (List Voice)
  synthesizeRemote : SynthesisInput → VoiceSelectionParams → AudioConfig →
      Except String (List Nat)
  writeFile : String → Option String
  outFs : String → Option (List Nat)

/-- Result of one process invocation: the trace of observable events in
order, the process exit status, and the binary filesystem afterwards. -/
structure Result where
  trace : List Event
  exitCode : Nat
  outFs : String → Option (List Nat)

/-- `'='*60` used in the listing banner. -/
def bannerLine : String := String.mk (List.replicate 60 (Char.ofNat 61))

/-- `"-" * 60`, the divider printed after each voice record. -/
def dividerLine : String := String.mk (List.replicate 60 (Char.ofNat 45))

/-- The four lines printed for one voice descriptor, followed by the
divider, exactly as in the loop body of `list_voices`. -/
def voiceLines (voice : Voice) : List String :=
  ["Name: " ++ voice.name,
   "Languages: " ++ String.intercalate ", " voice.language_codes,
   "Gender: " ++ voice.ssml_gender.memberName,
   "Natural Sample Rate: " ++ toString voice.natural_sample_rate_hertz ++ " Hz",
   dividerLine]

/-- `list_voices(language_code)`: create a client (failure prints and
exits 1), issue the catalog query (failure prints and exits 1), then
print the banner and one record per returned voice; the process then
ends with status 0. -/
def list_voices (env : Env) (language_code : String) : Result :=
  match env.clientCreate with
  | .error e =>
      { trace := [.netConnect, .print ("Error creating client: " ++ e)],
        exitCode := 1, outFs := env.outFs }
  | .ok _ =>
      match env.listVoicesRemote language_code with
      | .error e =>
          { trace := [.netConnect, .netListVoices language_code,
                      .print ("Error listing voices: " ++ e)],
            exitCode := 1, outFs := env.outFs }
      | .ok voices =>
          { trace := [.netConnect, .netListVoices language_code,
                      .print ("\n" ++ bannerLine),
                      .print ("Available voices for language: " ++ language_code),
                      .print (bannerLine ++ "\n")]
                ++ voices.flatMap (fun v => (voiceLines v).map Event.print),
            exitCode := 0, outFs := env.outFs }

/-- Message printed when the input file is missing. -/
def notFoundMsg (input_file : String) : String :=
  "‚úó Error: Input file \x27" ++ input_file ++ "\x27 not found."

/-- Message printed on any other exception while reading the input file. -/
def readErrMsg (e : String) : String :=
  "‚úó Error reading input file: " ++ e

/-- `text_to_speech(input_file, output_file, voice_name, language_code)`:
read the input file, create a client, build the synthesis request with a
fixed MP3 encoding, dispatch it, and write the returned payload to the
output file; every failure prints a message and exits 1.  The successful
write updates `outFs` at `output_file` to exactly the payload, because
`open(output_file, "wb")` truncates before `out.write` stores the bytes. -/
def text_to_speech (env : Env) (input_file output_file voice_name language_code :
    String) : Result :=
  match env.readFile input_file with
  | .notFound =>
      { trace := [.fileRead input_file, .print (notFoundMsg input_file)],
        exitCode := 1, outFs := env.outFs }
  | .failure e =>
      { trace := [.fileRead input_file, .print (readErrMsg e)],
        exitCode := 1, outFs := env.outFs }
  | .ok text =>
      let t1 : List Event :=
        [.fileRead input_file,
         .print ("‚úì Read " ++ toString text.length ++ " characters from \x27"
                 ++ input_file ++ "\x27")]
      match env.clientCreate with
      | .error e =>
          { trace := t1 ++ [.netConnect, .print ("‚úó Error creating client: " ++ e)],
            exitCode := 1, outFs := env.outFs }
      | .ok _ =>
          let t2 : List Event := t1 ++
            [.netConnect, .print "‚úì Connected to Google Cloud Text-to-Speech API"]
          let synthesis_input : SynthesisInput := { text := text }
          let voice : VoiceSelectionParams :=
            { language_code := language_code, name := voice_name }
          let audio_config : AudioConfig := { audio_encoding := .MP3 }
          let t3 : List Event := t2 ++
            [.print ("‚úì Using voice: " ++ voice_name ++ " (" ++ language_code ++ ")"),
             .print "‚ü≥ Synthesizing speech...",
             .netSynthesize synthesis_input voice audio_config]
          match env.synthesizeRemote synthesis_input voice audio_config with
          | .error e =>
              { trace := t3 ++ [.print ("‚úó Error during synthesis: " ++ e)],
                exitCode := 1, outFs := env.outFs }
          | .ok audio_content =>
              let t4 : List Event := t3 ++ [.print "‚úì Speech synthesis complete"]
              match env.writeFile output_file with
              | some e =>
                  { trace := t4 ++ [.print ("‚úó Error writing output file: " ++ e)],
                    exitCode := 1, outFs := env.outFs }
              | none =>
                  { trace := t4 ++
                      [.fileWrite output_file audio_content,
                       .print ("‚úì Audio content written to \x27" ++ output_file
                               ++ "\x27")],
                    exitCode := 0,
                    outFs := fun p =>
                      if p = output_file then some audio_content else env.outFs p }

/-- The argparse namespace: two optional positionals (`nargs=\x27?\x27`
yields `none` when absent), the `--list-voices` switch, and the two
string options with their defaults already applied. -/
structure Args where
  input_file : Option String
  output_file : Option String
  list_voices : Bool
  voice : String
  language : String
  deriving DecidableEq, Repr

/-- Build the parsed-argument namespace.  `none` for `voiceArg` or
`langArg` means the flag was omitted on the command line, in which case
argparse substitutes the `default=` value from `add_argument`. -/
def mkArgs (inp out : Option String) (lv : Bool)
    (voiceArg langArg : Option String) : Args :=
  { input_file := inp
    output_file := out
    list_voices := lv
    voice := voiceArg.getD "en-US-Wavenet-D"
    language := langArg.getD "en-US" }

/-- Python truthiness of an optional string: `None` and `""` are falsy. -/
def truthy : Option String → Bool
  | none => false
  | some s => !s.isEmpty

/-- The help text printed by `parser.print_help()`.  Its exact wording is
generated by argparse; we treat it as an opaque constant. -/
def help_text : String :=
  "usage: s2t-gcp.py [-h] [--list-voices] [--voice VOICE] [--language LANGUAGE] [input_file] [output_file]"

/-- The dispatch in `main` after `parser.parse_args()`: the listing flow
when `--list-voices` is set, otherwise help plus exit 1 when either
positional is falsy, otherwise the synthesis flow. -/
def main_run (env : Env) (a : Args) : Result :=
  if a.list_voices then
    list_voices env a.language
  else if !truthy a.input_file || !truthy a.output_file then
    { trace := [.print help_text], exitCode := 1, outFs := env.outFs }
  else
    text_to_speech env (a.input_file.getD "") (a.output_file.getD "")
      a.voice a.language

/-- Audio payload bytes returned by the test environment below. -/
def audioPayload : List Nat := [73, 68, 51, 4, 0]

/-- A sample voice descriptor for the test environment. -/
def sampleVoice : Voice :=
  { name := "en-US-Wavenet-D"
    language_codes := ["en-US"]
    ssml_gender := .MALE
    natural_sample_rate_hertz := 24000 }

/-- A fully successful test environment: `input.txt` holds `"hello"`, the
remote service works, and `out.mp3` already holds three stale bytes. -/
def okEnv : Env :=
  { readFile := fun p => if p = "input.txt" then .ok "hello" else .notFound
    clientCreate := .ok ()
    listVoicesRemote := fun _ => .ok [sampleVoice]
    synthesizeRemote := fun _ _ _ => .ok audioPayload
    writeFile := fun _ => none
    outFs := fun p => if p = "out.mp3" then some [1, 2, 3] else none }

/-- Environment whose client creation fails. -/
def connFailEnv : Env := { okEnv with clientCreate := .error "connection refused" }

/-- Environment whose synthesize call fails. -/
def synthFailEnv : Env :=
  { okEnv with synthesizeRemote := fun _ _ _ => .error "quota exceeded" }

/-- Environment whose catalog query fails. -/
def listFailEnv : Env :=
  { okEnv with listVoicesRemote := fun _ => .error "unknown language" }

/-- Environment where every input-file read raises a non-missing error. -/
def readFailEnv : Env :=
  { okEnv with readFile := fun _ => .failure "permission denied" }

lemma head?_append (p x : String) (c : Char) (h : p.data.head? = some c) :
    (p ++ x).data.head? = some c := by
  rcases hd : p.data with _ | ⟨a, t⟩
  · rw [hd] at h; exact absurd h (by simp)
  · rw [hd] at h
    simp at h
    simp [String.data_append, hd, h]

lemma ne_dividerLine_of_head (p : String) (c : Char)
    (h : p.data.head? = some c) (hc : (c = Char.ofNat 45) = False) :
    p ≠ dividerLine := by
  intro he
  have h2 : dividerLine.data.head? = some (Char.ofNat 45) := by decide
  rw [he, h2] at h
  simp at h
  rw [h] at hc
  simp at hc

lemma voiceLines_count_divider (v : Voice) :
    ((voiceLines v).map Event.print).count (Event.print dividerLine) = 1 := by
  have h1 : "Name: " ++ v.name ≠ dividerLine :=
    ne_dividerLine_of_head _ (Char.ofNat 78)
      (head?_append _ _ _ (by decide)) (by decide)
  have h2 : "Languages: " ++ String.intercalate ", " v.language_codes ≠ dividerLine :=
    ne_dividerLine_of_head _ (Char.ofNat 76)
      (head?_append _ _ _ (by decide)) (by decide)
  have h3 : "Gender: " ++ v.ssml_gender.memberName ≠ dividerLine :=
    ne_dividerLine_of_head _ (Char.ofNat 71)
      (head?_append _ _ _ (by decide)) (by decide)
  have h4 : "Natural Sample Rate: " ++ toString v.natural_sample_rate_hertz ++ " Hz"
      ≠ dividerLine :=
    ne_dividerLine_of_head _ (Char.ofNat 78)
      (head?_append _ _ _ (head?_append _ _ _ (by decide))) (by decide)
  simp [voiceLines, List.count_cons, h1, h2, h3, h4]

lemma flatMap_count_divider (vs : List Voice) :
    (vs.flatMap (fun v => (voiceLines v).map Event.print)).count
      (Event.print dividerLine) = vs.length := by
  induction vs with
  | nil => rfl
  | cons v t ih =>
      simp [List.count_append, ih, voiceLines_count_divider]
      omega

lemma listing_count_divider (env : Env) (lang : String) (voices : List Voice)
    (hc : env.clientCreate = .ok ()) (hl : env.listVoicesRemote lang = .ok voices) :
    (list_voices env lang).trace.count (Event.print dividerLine) = voices.length := by
  have b1 : "\n" ++ bannerLine ≠ dividerLine :=
    ne_dividerLine_of_head _ (Char.ofNat 10) (head?_append _ _ _ (by decide))
      (by decide)
  have b2 : "Available voices for language: " ++ lang ≠ dividerLine :=
    ne_dividerLine_of_head _ (Char.ofNat 65) (head?_append _ _ _ (by decide))
      (by decide)
  have b3 : bannerLine ++ "\n" ≠ dividerLine :=
    ne_dividerLine_of_head _ (Char.ofNat 61) (head?_append _ _ _ (by decide))
      (by decide)
  simp [list_voices, hc, hl, List.count_append, List.count_cons, b1, b2, b3,
    flatMap_count_divider]

/-- C1: for every readable input text and every (voice, language) pair the
remote service accepts, the synthesis flow writes to the output path exactly
the payload bytes the service returned — byte-for-byte, with no local
transformation — and exits with status 0. -/
theorem C1_synthesis_byte_passthrough (env : Env) (inp out v l text : String)
    (payload : List Nat)
    (hr : env.readFile inp = .ok text)
    (hc : env.clientCreate = .ok ())
    (hs : env.synthesizeRemote { text := text } { language_code := l, name := v }
        { audio_encoding := .MP3 } = .ok payload)
    (hw : env.writeFile out = none) :
    (text_to_speech env inp out v l).outFs out = some payload ∧
    Event.fileWrite out payload ∈ (text_to_speech env inp out v l).trace ∧
    (text_to_speech env inp out v l).exitCode = 0 := by
  refine ⟨?_, ?_, ?_⟩ <;> simp [text_to_speech, hr, hc, hs, hw]

theorem C1_witness :
    (text_to_speech okEnv "input.txt" "out.mp3" "en-US-Wavenet-D" "en-US").outFs
        "out.mp3" = some audioPayload ∧
    Event.fileWrite "out.mp3" audioPayload ∈
      (text_to_speech okEnv "input.txt" "out.mp3" "en-US-Wavenet-D" "en-US").trace ∧
    (text_to_speech okEnv "input.txt" "out.mp3" "en-US-Wavenet-D" "en-US").exitCode
      = 0 :=
  C1_synthesis_byte_passthrough okEnv "input.txt" "out.mp3" "en-US-Wavenet-D"
    "en-US" "hello" audioPayload (by decide) rfl rfl rfl

/-- C2: remote-service failures at the connection stage, the catalog-query
stage or the synthesis stage make the program exit 1 and skip every later
pipeline step; in particular a synthesize failure never reaches the
output-write step and leaves the filesystem unchanged. -/
theorem C2_remote_failure_fail_fast :
    (∀ (env : Env) (inp out v l text e : String),
        env.readFile inp = .ok text → env.clientCreate = .error e →
        (text_to_speech env inp out v l).exitCode = 1 ∧
        (text_to_speech env inp out v l).trace.all
          (fun ev => !ev.isSynthesize && !ev.isFileWrite) = true ∧
        (text_to_speech env inp out v l).outFs = env.outFs) ∧
    (∀ (env : Env) (inp out v l text e : String),
        env.readFile inp = .ok text → env.clientCreate = .ok () →
        env.synthesizeRemote { text := text } { language_code := l, name := v }
          { audio_encoding := .MP3 } = .error e →
        (text_to_speech env inp out v l).exitCode = 1 ∧
        (text_to_speech env inp out v l).trace.all
          (fun ev => !ev.isFileWrite) = true ∧
        (text_to_speech env inp out v l).outFs = env.outFs) ∧
    (∀ (env : Env) (l e : String),
        env.clientCreate = .error e →
        (list_voices env l).exitCode = 1 ∧
        (list_voices env l).trace.all (fun ev => !ev.isListQuery) = true ∧
        (list_voices env l).outFs = env.outFs) ∧
    (∀ (env : Env) (l e : String),
        env.clientCreate = .ok () → env.listVoicesRemote l = .error e →
        (list_voices env l).exitCode = 1 ∧
        (list_voices env l).outFs = env.outFs) := by
  refine ⟨?_, ?_, ?_, ?_⟩
  · intro env inp out v l text e hr hc
    refine ⟨?_, ?_, ?_⟩ <;>
      simp [text_to_speech, hr, hc, Event.isSynthesize, Event.isFileWrite]
  · intro env inp out v l text e hr hc hs
    refine ⟨?_, ?_, ?_⟩ <;>
      simp [text_to_speech, hr, hc, hs, Event.isSynthesize, Event.isFileWrite]
  · intro env l e hc
    refine ⟨?_, ?_, ?_⟩ <;> simp [list_voices, hc, Event.isListQuery]
  · intro env l e hc hl
    refine ⟨?_, ?_⟩ <;> simp [list_voices, hc, hl]

theorem C2_witness :
    (text_to_speech connFailEnv "input.txt" "out.mp3" "v" "l").exitCode = 1 ∧
    (text_to_speech synthFailEnv "input.txt" "out.mp3" "v" "l").trace.all
      (fun ev => !ev.isFileWrite) = true ∧
    (list_voices connFailEnv "en-US").exitCode = 1 ∧
    (list_voices listFailEnv "en-US").exitCode = 1 :=
  ⟨(C2_remote_failure_fail_fast.1 connFailEnv "input.txt" "out.mp3" "v" "l"
      "hello" "connection refused" (by decide) rfl).1,
   (C2_remote_failure_fail_fast.2.1 synthFailEnv "input.txt" "out.mp3" "v" "l"
      "hello" "quota exceeded" (by decide) rfl rfl).2.1,
   (C2_remote_failure_fail_fast.2.2.1 connFailEnv "en-US" "connection refused"
      rfl).1,
   (C2_remote_failure_fail_fast.2.2.2 listFailEnv "en-US" "unknown language"
      rfl rfl).1⟩

/-- C3: per invocation, exactly one of three behaviours occurs: with the
list-voices flag set the listing flow runs (ignoring both positionals); else
with either positional falsy the help text is printed and the exit status is
1; else the synthesis flow runs with the supplied parameters. -/
theorem C3_dispatch_trichotomy (env : Env) (a : Args) :
    (a.list_voices = true ∨
      (a.list_voices = false ∧
        (truthy a.input_file = false ∨ truthy a.output_file = false)) ∨
      (a.list_voices = false ∧ truthy a.input_file = true ∧
        truthy a.output_file = true)) ∧
    (a.list_voices = true →
        ¬ (a.list_voices = false ∧
            (truthy a.input_file = false ∨ truthy a.output_file = false)) ∧
        ¬ (a.list_voices = false ∧ truthy a.input_file = true ∧
            truthy a.output_file = true)) ∧
    ((a.list_voices = false ∧
        (truthy a.input_file = false ∨ truthy a.output_file = false)) →
      ¬ (a.list_voices = false ∧ truthy a.input_file = true ∧
          truthy a.output_file = true)) ∧
    (a.list_voices = true →
        main_run env a = list_voices env a.language ∧
        ∀ i o, main_run env { a with input_file := i, output_file := o } =
          main_run env a) ∧
    (a.list_voices = false →
        (truthy a.input_file = false ∨ truthy a.output_file = false) →
        main_run env a =
          { trace := [Event.print help_text], exitCode := 1, outFs := env.outFs } ∧
        (main_run env a).exitCode = 1) ∧
    (a.list_voices = false → truthy a.input_file = true →
        truthy a.output_file = true →
        main_run env a = text_to_speech env (a.input_file.getD "")
          (a.output_file.getD "") a.voice a.language) := by
  refine ⟨?_, ?_, ?_, ?_, ?_, ?_⟩
  · cases hlv : a.list_voices
    · cases hin : truthy a.input_file
      · exact Or.inr (Or.inl ⟨rfl, Or.inl rfl⟩)
      · cases hout : truthy a.output_file
        · exact Or.inr (Or.inl ⟨rfl, Or.inr rfl⟩)
        · exact Or.inr (Or.inr ⟨rfl, rfl, rfl⟩)
    · exact Or.inl rfl
  · intro h
    constructor
    · rintro ⟨h2, -⟩; rw [h] at h2; simp at h2
    · rintro ⟨h2, -⟩; rw [h] at h2; simp at h2
  · rintro ⟨-, h1⟩ ⟨-, h2, h3⟩
    rcases h1 with h1 | h1
    · rw [h2] at h1; simp at h1
    · rw [h3] at h1; simp at h1
  · intro h
    constructor
    · simp [main_run, h]
    · intro i o; simp [main_run, h]
  · intro h h2
    have hcond : (!truthy a.input_file || !truthy a.output_file) = true := by
      rcases h2 with h2 | h2 <;> simp [h2]
    constructor
    · simp [main_run, h, hcond]
    · simp [main_run, h, hcond]
  · intro h hin hout
    simp [main_run, h, hin, hout]

theorem C3_witness :
    main_run okEnv (mkArgs (some "a.txt") (some "b.mp3") true none none) =
      list_voices okEnv "en-US" ∧
    main_run okEnv (mkArgs none (some "b.mp3") false none none) =
      { trace := [Event.print help_text], exitCode := 1, outFs := okEnv.outFs } ∧
    main_run okEnv (mkArgs (some "input.txt") (some "out.mp3") false none none) =
      text_to_speech okEnv "input.txt" "out.mp3" "en-US-Wavenet-D" "en-US" :=
  ⟨((C3_dispatch_trichotomy okEnv
      (mkArgs (some "a.txt") (some "b.mp3") true none none)).2.2.2.1 rfl).1,
   ((C3_dispatch_trichotomy okEnv
      (mkArgs none (some "b.mp3") false none none)).2.2.2.2.1 rfl (Or.inl rfl)).1,
   (C3_dispatch_trichotomy okEnv
      (mkArgs (some "input.txt") (some "out.mp3") false none none)).2.2.2.2.2
      rfl (by decide) (by decide)⟩

/-- C4: a missing input file makes the synthesis flow print the not-found
message and exit 1 with the filesystem untouched (no output file is
produced); any other read failure prints the read-error message and exits 1
with the filesystem untouched. -/
theorem C4_input_read_errors (env : Env) (inp out v l : String) :
    (env.readFile inp = .notFound →
        text_to_speech env inp out v l =
          { trace := [Event.fileRead inp, Event.print (notFoundMsg inp)],
            exitCode := 1, outFs := env.outFs } ∧
        (env.outFs out = none →
          (text_to_speech env inp out v l).outFs out = none)) ∧
    (∀ e, env.readFile inp = .failure e →
        text_to_speech env inp out v l =
          { trace := [Event.fileRead inp, Event.print (readErrMsg e)],
            exitCode := 1, outFs := env.outFs }) := by
  constructor
  · intro hr
    constructor
    · simp [text_to_speech, hr]
    · intro hnone
      simp [text_to_speech, hr, hnone]
  · intro e hr
    simp [text_to_speech, hr]

theorem C4_witness :
    text_to_speech okEnv "missing.txt" "new.mp3" "v" "l" =
      { trace := [Event.fileRead "missing.txt",
                  Event.print (notFoundMsg "missing.txt")],
        exitCode := 1, outFs := okEnv.outFs } ∧
    (text_to_speech okEnv "missing.txt" "new.mp3" "v" "l").outFs "new.mp3" =
      none ∧
    text_to_speech readFailEnv "input.txt" "out.mp3" "v" "l" =
      { trace := [Event.fileRead "input.txt",
                  Event.print (readErrMsg "permission denied")],
        exitCode := 1, outFs := readFailEnv.outFs } :=
  ⟨((C4_input_read_errors okEnv "missing.txt" "new.mp3" "v" "l").1 (by decide)).1,
   ((C4_input_read_errors okEnv "missing.txt" "new.mp3" "v" "l").1 (by decide)).2
      (by decide),
   (C4_input_read_errors readFailEnv "input.txt" "out.mp3" "v" "l").2
      "permission denied" rfl⟩

/-- C5: the listing flow prints a banner naming the queried language code,
prints for each returned voice its name, comma-joined language codes,
human-readable gender label and native sample rate in Hertz, prints the
divider exactly once per voice, and the gender label is always one of the
four symbolic member names, never the raw numeric code. -/
theorem C5_listing_output_format (env : Env) (lang : String) (voices : List Voice)
    (hc : env.clientCreate = .ok ()) (hl : env.listVoicesRemote lang = .ok voices) :
    Event.print ("Available voices for language: " ++ lang) ∈
      (list_voices env lang).trace ∧
    (list_voices env lang).trace.count (Event.print dividerLine) = voices.length ∧
    (∀ v ∈ voices,
        Event.print ("Name: " ++ v.name) ∈ (list_voices env lang).trace ∧
        Event.print ("Languages: " ++ String.intercalate ", " v.language_codes)
          ∈ (list_voices env lang).trace ∧
        Event.print ("Gender: " ++ v.ssml_gender.memberName)
          ∈ (list_voices env lang).trace ∧
        Event.print ("Natural Sample Rate: "
            ++ toString v.natural_sample_rate_hertz ++ " Hz")
          ∈ (list_voices env lang).trace) ∧
    (∀ v : Voice,
        v.ssml_gender.memberName ∈
          ["SSML_VOICE_GENDER_UNSPECIFIED", "MALE", "FEMALE", "NEUTRAL"] ∧
        v.ssml_gender.memberName ≠ toString v.ssml_gender.value) := by
  refine ⟨?_, listing_count_divider env lang voices hc hl, ?_, ?_⟩
  · simp [list_voices, hc, hl]
  · intro v hv
    refine ⟨?_, ?_, ?_, ?_⟩ <;>
      · simp only [list_voices, hc, hl, List.mem_append]
        right
        rw [List.mem_flatMap]
        exact ⟨v, hv, by simp [voiceLines]⟩
  · intro v
    cases h : v.ssml_gender <;>
      simp [SsmlVoiceGender.memberName, SsmlVoiceGender.value] <;> decide

theorem C5_witness :
    Event.print ("Available voices for language: " ++ "en-US") ∈
      (list_voices okEnv "en-US").trace ∧
    (list_voices okEnv "en-US").trace.count (Event.print dividerLine) = 1 ∧
    Event.print ("Gender: " ++ sampleVoice.ssml_gender.memberName) ∈
      (list_voices okEnv "en-US").trace :=
  ⟨(C5_listing_output_format okEnv "en-US" [sampleVoice] rfl rfl).1,
   (C5_listing_output_format okEnv "en-US" [sampleVoice] rfl rfl).2.1,
   ((C5_listing_output_format okEnv "en-US" [sampleVoice] rfl rfl).2.2.1
      sampleVoice (by decide)).2.2.1⟩

/-- C6 as stated is false: the default voice identifier in the source is
"en-US-Wavenet-D", not the string "standard-en-US-D-equivalent" given by the
spec. -/
theorem C6_counterexample :
    (mkArgs none none false none none).voice = "en-US-Wavenet-D" ∧
    ¬ (mkArgs none none false none none).voice = "standard-en-US-D-equivalent" :=
  ⟨rfl, by decide⟩

/-- C6 (amended): when the voice flag is omitted the voice identifier
defaults to the fixed voice "en-US-Wavenet-D" and is the one passed to the
remote service; when the language flag is omitted the language code defaults
to "en-US". -/
theorem C6_default_voice_language (i o : Option String) (lv : Bool) :
    (mkArgs i o lv none none).voice = "en-US-Wavenet-D" ∧
    (mkArgs i o lv none none).language = "en-US" ∧
    (∀ (env : Env) (inp out text : String) (payload : List Nat),
        env.readFile inp = .ok text → env.clientCreate = .ok () →
        env.synthesizeRemote { text := text }
          { language_code := "en-US", name := "en-US-Wavenet-D" }
          { audio_encoding := .MP3 } = .ok payload →
        env.writeFile out = none →
        truthy (some inp) = true → truthy (some out) = true →
        Event.netSynthesize { text := text }
          { language_code := "en-US", name := "en-US-Wavenet-D" }
          { audio_encoding := .MP3 }
          ∈ (main_run env (mkArgs (some inp) (some out) false none none)).trace) := by
  refine ⟨rfl, rfl, ?_⟩
  intro env inp out text payload hr hc hs hw hin hout
  have hd : main_run env (mkArgs (some inp) (some out) false none none) =
      text_to_speech env inp out "en-US-Wavenet-D" "en-US" := by
    simp [main_run, mkArgs, hin, hout]
  rw [hd]
  simp [text_to_speech, hr, hc, hs, hw]

theorem C6_witness :
    (mkArgs (some "input.txt") (some "out.mp3") false none none).voice =
      "en-US-Wavenet-D" ∧
    Event.netSynthesize { text := "hello" }
      { language_code := "en-US", name := "en-US-Wavenet-D" }
      { audio_encoding := .MP3 }
      ∈ (main_run okEnv
          (mkArgs (some "input.txt") (some "out.mp3") false none none)).trace :=
  ⟨(C6_default_voice_language (some "input.txt") (some "out.mp3") false).1,
   (C6_default_voice_language (some "input.txt") (some "out.mp3") false).2.2
      okEnv "input.txt" "out.mp3" "hello" audioPayload (by decide) rfl rfl rfl
      (by decide) (by decide)⟩

/-- C7: with neither positional argument and without the list-voices flag,
the program prints only the help text, exits 1, and performs no file I/O and
no network calls; the filesystem is unchanged. -/
theorem C7_no_args_prints_usage (env : Env) (a : Args)
    (h1 : a.input_file = none) (h2 : a.output_file = none)
    (h3 : a.list_voices = false) :
    main_run env a =
      { trace := [Event.print help_text], exitCode := 1, outFs := env.outFs } ∧
    (main_run env a).trace.all (fun ev => !ev.isFileIO && !ev.isNetwork) = true ∧
    (main_run env a).outFs = env.outFs := by
  have hr : main_run env a =
      { trace := [Event.print help_text], exitCode := 1, outFs := env.outFs } := by
    simp [main_run, h1, h2, h3, truthy]
  exact ⟨hr, by rw [hr]; rfl, by rw [hr]⟩

theorem C7_witness :
    main_run okEnv (mkArgs none none false none none) =
      { trace := [Event.print help_text], exitCode := 1, outFs := okEnv.outFs } ∧
    (main_run okEnv (mkArgs none none false none none)).trace.all
      (fun ev => !ev.isFileIO && !ev.isNetwork) = true :=
  ⟨(C7_no_args_prints_usage okEnv (mkArgs none none false none none)
      rfl rfl rfl).1,
   (C7_no_args_prints_usage okEnv (mkArgs none none false none none)
      rfl rfl rfl).2.1⟩

/-- C8: with the list-voices flag set, the voice flag has no effect — two
invocations differing only in the voice value produce identical results. -/
theorem C8_voice_flag_noninterference (env : Env) (a : Args) (v1 v2 : String)
    (h : a.list_voices = true) :
    main_run env { a with voice := v1 } = main_run env { a with voice := v2 } := by
  simp [main_run, h]

theorem C8_witness :
    main_run okEnv { mkArgs none none true none none with voice := "A" } =
      main_run okEnv { mkArgs none none true none none with voice := "B" } :=
  C8_voice_flag_noninterference okEnv (mkArgs none none true none none)
    "A" "B" rfl

/-- C9: an empty-string positional argument is treated like a missing one:
without the list-voices flag, an invocation whose input or output path is
the empty string prints the help text and exits 1 instead of entering the
synthesis flow, exactly as with the argument absent. -/
theorem C9_empty_positional_like_missing (env : Env) (a : Args)
    (h : a.list_voices = false) :
    (a.input_file = some "" →
        main_run env a = main_run env { a with input_file := none } ∧
        main_run env a =
          { trace := [Event.print help_text], exitCode := 1, outFs := env.outFs } ∧
        (main_run env a).exitCode = 1) ∧
    (a.output_file = some "" →
        main_run env a = main_run env { a with output_file := none } ∧
        main_run env a =
          { trace := [Event.print help_text], exitCode := 1, outFs := env.outFs } ∧
        (main_run env a).exitCode = 1) := by
  constructor
  · intro hin
    have hr : main_run env a =
        { trace := [Event.print help_text], exitCode := 1, outFs := env.outFs } := by
      simp [main_run, h, hin, truthy, show ("" : String).isEmpty = true from rfl]
    have hr2 : main_run env { a with input_file := none } =
        { trace := [Event.print help_text], exitCode := 1, outFs := env.outFs } := by
      simp [main_run, h, truthy]
    exact ⟨hr.trans hr2.symm, hr, by rw [hr]⟩
  · intro hout
    have hr : main_run env a =
        { trace := [Event.print help_text], exitCode := 1, outFs := env.outFs } := by
      simp [main_run, h, hout, truthy, show ("" : String).isEmpty = true from rfl]
    have hr2 : main_run env { a with output_file := none } =
        { trace := [Event.print help_text], exitCode := 1, outFs := env.outFs } := by
      simp [main_run, h, truthy]
    exact ⟨hr.trans hr2.symm, hr, by rw [hr]⟩

theorem C9_witness :
    main_run okEnv (mkArgs (some "") (some "out.mp3") false none none) =
      main_run okEnv (mkArgs none (some "out.mp3") false none none) ∧
    (main_run okEnv (mkArgs (some "") (some "out.mp3") false none none)).exitCode
      = 1 :=
  ⟨((C9_empty_positional_like_missing okEnv
      (mkArgs (some "") (some "out.mp3") false none none) rfl).1 rfl).1,
   ((C9_empty_positional_like_missing okEnv
      (mkArgs (some "") (some "out.mp3") false none none) rfl).1 rfl).2.2⟩

/-- C10: on a successful synthesis run whose output path already holds prior
contents, the file afterwards holds exactly the returned payload; the prior
bytes are entirely discarded, never kept with the payload appended. -/
theorem C10_output_overwritten (env : Env) (inp out v l text : String)
    (payload old : List Nat)
    (hr : env.readFile inp = .ok text)
    (hc : env.clientCreate = .ok ())
    (hs : env.synthesizeRemote { text := text } { language_code := l, name := v }
        { audio_encoding := .MP3 } = .ok payload)
    (hw : env.writeFile out = none)
    (_hprior : env.outFs out = some old) :
    (text_to_speech env inp out v l).outFs out = some payload ∧
    ((text_to_speech env inp out v l).outFs out = some (old ++ payload) →
        old = []) := by
  have hres : (text_to_speech env inp out v l).outFs out = some payload := by
    simp [text_to_speech, hr, hc, hs, hw]
  refine ⟨hres, ?_⟩
  intro happ
  rw [hres] at happ
  have hlen : payload.length = old.length + payload.length := by
    have := congrArg List.length (Option.some.inj happ)
    simpa using this
  have h0 : old.length = 0 := by omega
  exact List.length_eq_zero.mp h0

theorem C10_witness :
    okEnv.outFs "out.mp3" = some [1, 2, 3] ∧
    (text_to_speech okEnv "input.txt" "out.mp3" "v" "en-US").outFs "out.mp3" =
      some audioPayload :=
  ⟨by decide,
   (C10_output_overwritten okEnv "input.txt" "out.mp3" "v" "en-US" "hello"
      audioPayload [1, 2, 3] (by decide) rfl rfl rfl (by decide)).1⟩

end S2TGcp
